import Mathlib

/-!
Verification of the result-normalization and ranking core of `src/gs.py`
(the "Similar Literature Finder" app).

The embedded fragment is the reimplementable core identified by the design
document: `parse_scholarly_papers` (the Result Normalizer), the
dedupe-by-Title step (`drop_duplicates(subset='Title')`, keep the first
occurrence), the sort step (coerce the chosen column to integers with
`pd.to_numeric(..., errors='coerce').fillna(0).astype(int)`, then
`sort_values(..., ascending=False)`), and `make_clickable` (link rendering).

Modelling choices:
* A raw hit is a record of the five fields the code consumes, each optional
  (`paper.get(...)` with a default).  A hit whose `bib` dictionary is absent
  is the hit with all three `bib` sub-fields absent.
* A DataFrame cell is a `Value`: either a string or an integer (the two cell
  shapes the pipeline produces).  `pd.to_numeric(v, errors='coerce').fillna(0)`
  on a cell is `coerceInt`: an integer passes through, a string is parsed as
  an integer and a non-numeric string becomes 0.
* `sort_values(by=c, ascending=False)` orders rows descending by column `c`.
  It is modelled here by `List.insertionSort` on the relation "key of the
  left row is at least the key of the right row", a representative
  descending sort.  The call uses pandas' default `kind='quicksort'`, which
  gives no guarantee on the relative order of rows with equal keys, so no
  theorem below relies on the model's tie order: the claims that touch the
  sort use only permutation-invariant facts (lengths) or one-element lists,
  where every descending sort agrees.
-/

namespace GS

/-- One DataFrame cell: the pipeline only ever stores strings or integers. -/
inductive Value where
  | str : String → Value
  | int : Int → Value
deriving DecidableEq, Repr

/-- One raw search hit as consumed by `parse_scholarly_papers`
(gs.py lines 26-30): every field reached through `.get` with a default is
optional, and absence is data, never an error. -/
structure RawHit where
  bib_title : Option String
  bib_author : Option (List String)
  bib_pub_year : Option Value
  num_citations : Option Int
  pub_url : Option String
deriving DecidableEq, Repr

/-- One normalized output row (gs.py lines 32-38): the five columns
Title, Authors, Publication Year, Number of Citations, Link are always
present. -/
structure PaperRecord where
  title : String
  authors : String
  pubYear : Value
  citations : Value
  link : String
deriving DecidableEq, Repr

/-- The raw hit with every consumed field absent. -/
def emptyHit : RawHit :=
  { bib_title := none, bib_author := none, bib_pub_year := none,
    num_citations := none, pub_url := none }

/-- Field extraction for one hit (gs.py lines 26-38):
`title = paper.get('bib', {}).get('title', 'N/A')`,
`authors = ', '.join(paper.get('bib', {}).get('author', []))`,
`pub_year = paper.get('bib', {}).get('pub_year', 'N/A')`,
`citations = paper.get('num_citations', 0)`,
`url = paper.get('pub_url', 'N/A')`. -/
def parseHit (paper : RawHit) : PaperRecord :=
  { title := paper.bib_title.getD "N/A"
    authors := String.intercalate ", " (paper.bib_author.getD [])
    pubYear := paper.bib_pub_year.getD (Value.str "N/A")
    citations := Value.int (paper.num_citations.getD 0)
    link := paper.pub_url.getD "N/A" }

/-- The fixed column schema (gs.py line 43). -/
def expected_columns : List String :=
  ["Title", "Authors", "Publication Year", "Number of Citations", "Link"]

/-- The labelled cells of one row, in the order the dictionary of gs.py
lines 32-38 lists them (which is also the reorder of line 49). -/
def recordCells (r : PaperRecord) : List (String × Value) :=
  [("Title", Value.str r.title),
   ("Authors", Value.str r.authors),
   ("Publication Year", r.pubYear),
   ("Number of Citations", r.citations),
   ("Link", Value.str r.link)]

/-- The column labels of one row. -/
def columnsOf (r : PaperRecord) : List String :=
  (recordCells r).map Prod.fst

/-- `parse_scholarly_papers(papers, top_n)` (gs.py lines 20-51): normalize the
first `top_n` hits (`papers[:top_n]`, so hits beyond that index are ignored)
into rows with the fixed five-column schema.  The column-filling loop of
lines 43-46 only fires on the empty frame, where it adds empty columns and
no rows, so on the list model it is the identity. -/
def parse_scholarly_papers (papers : List RawHit) (top_n : Nat) : List PaperRecord :=
  (papers.take top_n).map parseHit

/-- `make_clickable(link)` (gs.py lines 53-58): a nonempty link other than
the marker becomes an anchor opening in a new tab with visible text
"View Paper"; anything else renders as the literal "N/A". -/
def make_clickable (link : String) : String :=
  if link ≠ "" ∧ link ≠ "N/A" then
    "<a href=\"" ++ link ++ "\" target=\"_blank\">View Paper</a>"
  else "N/A"

/-- `drop_duplicates(subset='Title', keep='first')` (gs.py line 128), with the
accumulator holding the titles already seen: a row whose title was seen
before is dropped, otherwise it is kept and its title recorded. -/
def dedupeAux : List String → List PaperRecord → List PaperRecord
  | _, [] => []
  | seen, r :: rs =>
    if r.title ∈ seen then dedupeAux seen rs
    else r :: dedupeAux (r.title :: seen) rs

/-- The dedupe step of gs.py line 128: keep the first row of each title. -/
def dedupeByTitle (l : List PaperRecord) : List PaperRecord :=
  dedupeAux [] l

/-- Decimal digit parse with an accumulator: reads the remaining characters
of an integer literal, failing on the first non-digit. -/
def parseDigitsAux : List Char → Nat → Option Nat
  | [], acc => some acc
  | c :: cs, acc =>
    if c.isDigit then parseDigitsAux cs (acc * 10 + (c.toNat - 48)) else none

/-- Integer parse of a string cell, the decimal-literal case of
`pd.to_numeric`: an optional leading minus sign followed by at least one
digit; any other string is non-numeric and parses to `none`. -/
def strToInt? (s : String) : Option Int :=
  match s.data with
  | [] => none
  | '-' :: cs =>
    match cs with
    | [] => none
    | _ => (parseDigitsAux cs 0).map (fun n => -(Int.ofNat n))
  | cs => (parseDigitsAux cs 0).map Int.ofNat

/-- `pd.to_numeric(v, errors='coerce').fillna(0).astype(int)` on one cell
(gs.py lines 132-134 and 137-139): an integer cell passes through; a string
cell parses as a decimal integer, and a non-numeric string coerces to 0. -/
def coerceInt : Value → Int
  | Value.int n => n
  | Value.str s => (strToInt? s).getD 0

/-- The user-chosen sort key (gs.py lines 98, 131, 136). -/
inductive SortKey where
  | pubYear : SortKey
  | citations : SortKey
deriving DecidableEq, Repr

/-- The cell of the chosen sort column. -/
def getCol : SortKey → PaperRecord → Value
  | SortKey.pubYear, r => r.pubYear
  | SortKey.citations, r => r.citations

/-- The in-place column assignment of gs.py lines 132-134 / 137-139: the
chosen column is overwritten with its coerced integer value. -/
def coerceRecord : SortKey → PaperRecord → PaperRecord
  | SortKey.pubYear, r => { r with pubYear := Value.int (coerceInt r.pubYear) }
  | SortKey.citations, r => { r with citations := Value.int (coerceInt r.citations) }

/-- The integer a row sorts by. -/
def sortVal (k : SortKey) (r : PaperRecord) : Int :=
  coerceInt (getCol k r)

/-- The descending comparison used by the sort: the left row's key is at
least the right row's key. -/
def keyGE (k : SortKey) (a b : PaperRecord) : Prop :=
  sortVal k b ≤ sortVal k a

instance (k : SortKey) : DecidableRel (keyGE k) :=
  fun _ _ => Int.decLe _ _

/-- The sort step (gs.py lines 131-140): overwrite the chosen column with
its coerced integer, then `sort_values(ascending=False)`, modelled by one
representative descending sort; the default `kind='quicksort'` gives no tie
order, so nothing below depends on this model's order among equal keys
(see the header comment). -/
def sortStep (k : SortKey) (l : List PaperRecord) : List PaperRecord :=
  List.insertionSort (keyGE k) (l.map (coerceRecord k))

/-- The whole post-fetch pipeline of gs.py lines 125-143: normalize the first
`top_n` fetched hits, dedupe by Title, sort by the chosen key, and replace
the Link column with its rendered form. -/
def session_results (k : SortKey) (hits : List RawHit) (top_n : Nat) :
    List PaperRecord :=
  (sortStep k (dedupeByTitle (parse_scholarly_papers hits top_n))).map
    (fun r => { r with link := make_clickable r.link })

/-- Claim C1: for every hit list and limit, `parse_scholarly_papers` returns
exactly `min limit |hits|` rows, each carrying exactly the five columns
Title, Authors, Publication Year, Number of Citations, Link in that fixed
order; hits beyond the limit are ignored, and the empty input yields the
empty output. -/
theorem parse_scholarly_papers_spec (H : List RawHit) (L : Nat) :
    (parse_scholarly_papers H L).length = min L H.length ∧
    (∀ r ∈ parse_scholarly_papers H L, columnsOf r = expected_columns) ∧
    parse_scholarly_papers H L = (H.take L).map parseHit ∧
    parse_scholarly_papers [] L = [] := by
  refine ⟨?_, ?_, rfl, by simp [parse_scholarly_papers]⟩
  · simp [parse_scholarly_papers]
  · intro r _
    rfl

/-- Claim C4: each absent field of a considered hit maps to its defined
default in the output row — title to "N/A", authors to the empty joined
string, publication year to "N/A", citation count to the integer 0, url to
"N/A" — and authors present as an ordered list are joined with ", " in
their original order. -/
theorem parseHit_defaults (h : RawHit) :
    (h.bib_title = none → (parseHit h).title = "N/A") ∧
    (h.bib_author = none → (parseHit h).authors = "") ∧
    (∀ names, h.bib_author = some names →
      (parseHit h).authors = String.intercalate ", " names) ∧
    (h.bib_pub_year = none → (parseHit h).pubYear = Value.str "N/A") ∧
    (h.num_citations = none → (parseHit h).citations = Value.int 0) ∧
    (h.pub_url = none → (parseHit h).link = "N/A") := by
  refine ⟨fun e => ?_, fun e => ?_, fun names e => ?_, fun e => ?_,
    fun e => ?_, fun e => ?_⟩
  · simp [parseHit, e]
  · simp [parseHit, e]
    decide
  · simp [parseHit, e]
  · simp [parseHit, e]
  · simp [parseHit, e]
  · simp [parseHit, e]

/-- Claim C6: the normalizer never fails — every input list, including hits
missing any or all consumed fields, yields a result: a list of rows each
with the full five-column schema, and hits with no fields at all become
rows filled entirely with the markers and defaults. -/
theorem parse_never_fails (H : List RawHit) (L : Nat) :
    (∀ r ∈ parse_scholarly_papers H L, columnsOf r = expected_columns) ∧
    (parse_scholarly_papers H L).length = min L H.length ∧
    parse_scholarly_papers (List.replicate L emptyHit) L =
      List.replicate L
        { title := "N/A", authors := "", pubYear := Value.str "N/A",
          citations := Value.int 0, link := "N/A" } := by
  refine ⟨fun r _ => rfl, by simp [parse_scholarly_papers], ?_⟩
  have hp : parseHit emptyHit =
      { title := "N/A", authors := "", pubYear := Value.str "N/A",
        citations := Value.int 0, link := "N/A" } := by decide
  simp [parse_scholarly_papers, List.take_replicate, List.map_replicate,
    Nat.min_self, hp]

/-- Claim C7: `make_clickable` returns the "View Paper" anchor targeting the
url in a new tab exactly when the url is present (nonempty) and not the
"N/A" marker, and the literal "N/A" otherwise; in particular "http://x"
renders as a clickable anchor and an absent url renders as "N/A". -/
theorem make_clickable_spec (link : String) :
    (link ≠ "" ∧ link ≠ "N/A" →
      make_clickable link =
        "<a href=\"" ++ link ++ "\" target=\"_blank\">View Paper</a>") ∧
    (link = "" ∨ link = "N/A" → make_clickable link = "N/A") ∧
    make_clickable "http://x" =
      "<a href=\"http://x\" target=\"_blank\">View Paper</a>" ∧
    make_clickable ((parseHit emptyHit).link) = "N/A" := by
  refine ⟨fun hp => ?_, fun hn => ?_, by decide, by decide⟩
  · simp [make_clickable, hp.1, hp.2]
  · rcases hn with hn | hn <;> simp [make_clickable, hn]

/-- Scenario 1's first hit: title "A", 5 citations, year 2020. -/
def hitA1 : RawHit :=
  { bib_title := some "A", bib_author := none,
    bib_pub_year := some (Value.int 2020), num_citations := some 5,
    pub_url := none }

/-- Scenario 1's second hit: same title "A", 9 citations, year 2021. -/
def hitA2 : RawHit :=
  { bib_title := some "A", bib_author := none,
    bib_pub_year := some (Value.int 2021), num_citations := some 9,
    pub_url := none }

lemma dedupeAux_sublist (seen : List String) (l : List PaperRecord) :
    (dedupeAux seen l).Sublist l := by
  induction l generalizing seen with
  | nil => simp [dedupeAux]
  | cons a rs ih =>
    by_cases h : a.title ∈ seen
    · simp only [dedupeAux, if_pos h]
      exact (ih seen).cons a
    · simp only [dedupeAux, if_neg h]
      exact (ih (a.title :: seen)).cons₂ a

lemma mem_dedupeAux (seen : List String) (l : List PaperRecord) :
    ∀ r ∈ dedupeAux seen l, r.title ∉ seen := by
  induction l generalizing seen with
  | nil => intro r hr; simp [dedupeAux] at hr
  | cons a rs ih =>
    intro r hr
    by_cases h : a.title ∈ seen
    · rw [dedupeAux, if_pos h] at hr
      exact ih seen r hr
    · rw [dedupeAux, if_neg h] at hr
      rcases List.mem_cons.mp hr with he | hm
      · exact he ▸ h
      · have := ih (a.title :: seen) r hm
        exact fun hs => this (List.mem_cons_of_mem _ hs)

lemma dedupeAux_pairwise (seen : List String) (l : List PaperRecord) :
    (dedupeAux seen l).Pairwise (fun a b => a.title ≠ b.title) := by
  induction l generalizing seen with
  | nil => simp [dedupeAux]
  | cons a rs ih =>
    by_cases h : a.title ∈ seen
    · simpa only [dedupeAux, if_pos h] using ih seen
    · simp only [dedupeAux, if_neg h]
      refine List.Pairwise.cons ?_ (ih (a.title :: seen))
      intro b hb he
      exact mem_dedupeAux _ _ b hb (he ▸ List.mem_cons_self _ _)

lemma dedupeAux_find? (seen : List String) (l : List PaperRecord) (t : String)
    (ht : t ∉ seen) :
    (dedupeAux seen l).find? (fun r => r.title == t) =
      l.find? (fun r => r.title == t) := by
  induction l generalizing seen with
  | nil => simp [dedupeAux]
  | cons a rs ih =>
    by_cases h : a.title ∈ seen
    · have hb : (a.title == t) = false := by
        simp only [beq_eq_false_iff_ne]
        intro he; exact ht (he ▸ h)
      rw [dedupeAux, if_pos h]
      simp only [List.find?, hb]
      exact ih seen ht
    · by_cases he : a.title = t
      · have hb : (a.title == t) = true := beq_iff_eq.mpr he
        rw [dedupeAux, if_neg h]
        simp only [List.find?, hb]
      · have hb : (a.title == t) = false := beq_eq_false_iff_ne.mpr he
        rw [dedupeAux, if_neg h]
        simp only [List.find?, hb]
        refine ih (a.title :: seen) ?_
        intro hmem
        rcases List.mem_cons.mp hmem with h1 | h2
        · exact he h1.symm
        · exact ht h2

lemma dedupeAux_eq_self (seen : List String) (l : List PaperRecord)
    (hp : l.Pairwise (fun a b => a.title ≠ b.title))
    (hs : ∀ r ∈ l, r.title ∉ seen) :
    dedupeAux seen l = l := by
  induction l generalizing seen with
  | nil => simp [dedupeAux]
  | cons a rs ih =>
    have ha : a.title ∉ seen := hs a (List.mem_cons_self _ _)
    rw [dedupeAux, if_neg ha]
    congr 1
    refine ih (a.title :: seen) hp.of_cons ?_
    intro r hr hmem
    rcases List.mem_cons.mp hmem with h1 | h2
    · exact (List.rel_of_pairwise_cons hp hr) h1.symm
    · exact hs r (List.mem_cons_of_mem _ hr) h2

lemma filter_title_length_le_one (t : String) (l : List PaperRecord)
    (hp : l.Pairwise (fun a b => a.title ≠ b.title)) :
    (l.filter (fun r => r.title == t)).length ≤ 1 := by
  have hf := hp.filter (fun r => r.title == t)
  cases hl : l.filter (fun r => r.title == t) with
  | nil => simp
  | cons a m =>
    cases m with
    | nil => simp
    | cons b m2 =>
      exfalso
      rw [hl] at hf
      have hab := List.rel_of_pairwise_cons hf (List.mem_cons_self b m2)
      have ha : a ∈ l.filter (fun r => r.title == t) := by
        rw [hl]; exact List.mem_cons_self _ _
      have hb : b ∈ l.filter (fun r => r.title == t) := by
        rw [hl]; exact List.mem_cons_of_mem _ (List.mem_cons_self _ _)
      have ha' : a.title = t := by
        have := (List.mem_filter.mp ha).2
        simpa only [beq_iff_eq] using this
      have hb' : b.title = t := by
        have := (List.mem_filter.mp hb).2
        simpa only [beq_iff_eq] using this
      exact hab (ha'.trans hb'.symm)

/-- Claim C5: dedupe keeps a subsequence of the input (so the kept rows stay
in relative order and nothing else is touched), the kept titles are pairwise
distinct, and for every title the first row the output offers is exactly the
first row of the input with that title (so exactly the later duplicates are
removed and the first occurrence survives); on Scenario 1's input the result
is the single row titled "A" with 5 citations. -/
theorem dedupe_spec (l : List PaperRecord) :
    (dedupeByTitle l).Sublist l ∧
    (dedupeByTitle l).Pairwise (fun a b => a.title ≠ b.title) ∧
    (∀ t : String, (dedupeByTitle l).find? (fun r => r.title == t) =
      l.find? (fun r => r.title == t)) ∧
    dedupeByTitle (parse_scholarly_papers [hitA1, hitA2] 10) =
      [{ title := "A", authors := "", pubYear := Value.int 2020,
         citations := Value.int 5, link := "N/A" }] :=
  ⟨dedupeAux_sublist [] l, dedupeAux_pairwise [] l,
    fun t => dedupeAux_find? [] l t (List.not_mem_nil t), by decide⟩

/-- Claim C8: deduplication by Title is idempotent — deduping an already
deduped row list returns it unchanged. -/
theorem dedupe_idempotent (l : List PaperRecord) :
    dedupeByTitle (dedupeByTitle l) = dedupeByTitle l :=
  dedupeAux_eq_self [] _ (dedupeAux_pairwise [] l)
    (fun r _ => List.not_mem_nil r.title)

/-- Claim C10: when at least two of the first `limit` hits lack a title, all
title-less hits collapse into a single surviving record titled "N/A" after
dedupe, even though they are distinct papers. -/
theorem titleless_collapse (H : List RawHit) (L : Nat)
    (h2 : 2 ≤ ((H.take L).filter (fun h => h.bib_title.isNone)).length) :
    ((dedupeByTitle (parse_scholarly_papers H L)).filter
      (fun r => r.title == "N/A")).length = 1 := by
  have hpos : 0 < ((H.take L).filter (fun h => h.bib_title.isNone)).length := by
    omega
  obtain ⟨h0, hh0⟩ := List.exists_mem_of_length_pos hpos
  have hmem : h0 ∈ H.take L := (List.mem_filter.mp hh0).1
  have hnone : h0.bib_title = none :=
    Option.isNone_iff_eq_none.mp (List.mem_filter.mp hh0).2
  have hrec : parseHit h0 ∈ parse_scholarly_papers H L :=
    List.mem_map_of_mem parseHit hmem
  have htitle : (parseHit h0).title = "N/A" := by
    simp [parseHit, hnone]
  have hsome : ((parse_scholarly_papers H L).find?
      (fun r => r.title == "N/A")).isSome := by
    rw [List.find?_isSome]
    exact ⟨parseHit h0, hrec, by simp [htitle]⟩
  obtain ⟨r0, hr0⟩ := Option.isSome_iff_exists.mp hsome
  have hfd : (dedupeByTitle (parse_scholarly_papers H L)).find?
      (fun r => r.title == "N/A") = some r0 := by
    unfold dedupeByTitle
    rw [dedupeAux_find? [] _ _ (List.not_mem_nil _)]
    exact hr0
  have hp0 : r0.title == "N/A" := by
    have h1 := List.find?_some hfd
    exact h1
  have hr0f : r0 ∈ (dedupeByTitle (parse_scholarly_papers H L)).filter
      (fun r => r.title == "N/A") :=
    List.mem_filter.mpr ⟨List.mem_of_find?_eq_some hfd, hp0⟩
  have hge : 0 < ((dedupeByTitle (parse_scholarly_papers H L)).filter
      (fun r => r.title == "N/A")).length :=
    List.length_pos.mpr (List.ne_nil_of_mem hr0f)
  have hle := filter_title_length_le_one "N/A"
    (dedupeByTitle (parse_scholarly_papers H L))
    (dedupeAux_pairwise [] (parse_scholarly_papers H L))
  omega

/-- A concrete input for the title-collapse claim: two title-less hits and
one titled hit among the first three. -/
def hitsW : List RawHit :=
  [emptyHit,
   { bib_title := none, bib_author := some ["Z"], bib_pub_year := none,
     num_citations := none, pub_url := none },
   hitA1]

/-- Witness for claim C10 at a concrete input: `hitsW` has two title-less
hits among its first three, and after normalize and dedupe exactly one
record titled "N/A" remains. -/
theorem titleless_collapse_witness :
    2 ≤ ((hitsW.take 3).filter (fun h => h.bib_title.isNone)).length ∧
    ((dedupeByTitle (parse_scholarly_papers hitsW 3)).filter
      (fun r => r.title == "N/A")).length = 1 :=
  ⟨by decide, titleless_collapse hitsW 3 (by decide)⟩

/-- Scenario 2's hit: title "B", publication year the string "N/A". -/
def hitB : RawHit :=
  { bib_title := some "B", bib_author := none,
    bib_pub_year := some (Value.str "N/A"), num_citations := none,
    pub_url := none }

/-- Claim C3, counterexample: after sorting Scenario 2's single record by
publication year, the displayed Publication Year cell does not read "N/A"
any more — the sort's in-place coercion overwrote the column. -/
theorem sort_coercion_display_cex :
    (sortStep SortKey.pubYear (parse_scholarly_papers [hitB] 10)).map
      PaperRecord.pubYear ≠ [Value.str "N/A"] := by decide

/-- Claim C3 as amended: after sorting Scenario 2's input by publication
year, the record titled "B" is still present and its coerced sort value is
0, but its displayed Publication Year cell reads the integer 0 — the sort
coercion overwrites the displayed value, as the destructive-coercion rule
of the sort policy prescribes. -/
theorem sort_coercion_display_amended :
    (sortStep SortKey.pubYear (parse_scholarly_papers [hitB] 10)).map
      PaperRecord.title = ["B"] ∧
    (parse_scholarly_papers [hitB] 10).map (sortVal SortKey.pubYear) = [0] ∧
    (sortStep SortKey.pubYear (parse_scholarly_papers [hitB] 10)).map
      PaperRecord.pubYear = [Value.int 0] := by decide

/-- Twenty fetched hits for a top-10 run: the first ten are distinct papers
sharing the title "A", the last ten carry ten further distinct titles. -/
def hitsC9 : List RawHit :=
  ((List.range 10).map (fun i =>
    { bib_title := some "A", bib_author := none,
      bib_pub_year := some (Value.int (Int.ofNat (2010 + i))),
      num_citations := some (Int.ofNat i), pub_url := none })) ++
  ((List.range 10).map (fun i =>
    { bib_title := some (String.append "B" (toString i)), bib_author := none,
      bib_pub_year := none, num_citations := none, pub_url := none }))

/-- Claim C9: the pipeline truncates to the top-N limit before
deduplicating.  On `hitsC9`, twenty fetched hits for N = 10 holding eleven
distinct titles (so at least N), normalize keeps only the first ten hits —
all duplicates of one title — and the final result set has a single record,
fewer than N: the extra fetched hits can never refill the result. -/
theorem pipeline_truncates_before_dedupe :
    hitsC9.length = 20 ∧
    (parse_scholarly_papers hitsC9 10).length = 10 ∧
    10 ≤ (dedupeByTitle (parse_scholarly_papers hitsC9 20)).length ∧
    (session_results SortKey.citations hitsC9 10).length = 1 ∧
    (session_results SortKey.citations hitsC9 10).length < 10 := by decide

end GS
